import Mathlib

/-!
Shallow embedding of the go-web-starter web application core
(cmd/web middleware chain, session-backed login, flash-message store,
background task runner, and the internal validator package), with
theorems checking the natural-language specification against it.

Conventions of the embedding:
* Go's `http.Header` is a list of key/value pairs; `Header().Set`
  replaces the first binding of a key, `Header().Add` appends.
* The scs session is threaded explicitly as a value: a token plus a
  key/value store whose values are the two dynamic types the program
  stores (`bool` and `[]FlashMessage`).
* A handler takes a request, the response-writer state and the session
  and either completes normally or ends in a panic that carries the
  response-writer and session state at the point of the panic.
* Status codes are plain naturals (200, 303, 422, 500).
-/

namespace GoWebStart

/-- Flash message levels, from `flashLevel` in cmd/web/helpers.go. -/
inductive FlashLevel
  | info
  | success
  | warning
  | error
deriving DecidableEq

/-- `FlashMessage` from cmd/web/helpers.go. -/
structure FlashMessage where
  level : FlashLevel
  message : String
deriving DecidableEq

/-- The dynamic (`any`-typed) values this program stores in the scs
session: booleans (the `authenticated` key) and flash-message queues
(the `messages` key). -/
inductive SessVal
  | vBool (b : Bool)
  | vMsgs (ms : List FlashMessage)
deriving DecidableEq

/-- Server-side session state: an opaque token plus a key/value store.
The scs store is external; it is modelled as an explicit association
list with at most one binding per key. -/
structure Session where
  token : Nat
  data : List (String × SessVal)
deriving DecidableEq

/-- Look a key up in the session store (scs `Get`). -/
def sessGet (s : Session) (k : String) : Option SessVal :=
  (s.data.find? (fun p => p.1 == k)).map (fun p => p.2)

/-- Store a value under a key (scs `Put`): replace the first binding of
the key, or append a new binding. -/
def sessPut (s : Session) (k : String) (v : SessVal) : Session :=
  if (s.data.find? (fun p => p.1 == k)).isSome then
    { s with data := s.data.map (fun p => if p.1 == k then (k, v) else p) }
  else
    { s with data := s.data ++ [(k, v)] }

/-- scs `Pop`: return the value under a key and remove the binding. -/
def sessPop (s : Session) (k : String) : Option SessVal × Session :=
  (sessGet s k, { s with data := s.data.filter (fun p => p.1 != k) })

/-- scs `Remove`: drop the binding of a key. -/
def sessRemove (s : Session) (k : String) : Session :=
  { s with data := s.data.filter (fun p => p.1 != k) }

/-- scs `GetBool`: the stored boolean, or `false` when the key is
absent or holds a value of another type. -/
def sessGetBool (s : Session) (k : String) : Bool :=
  match sessGet s k with
  | some (.vBool b) => b
  | _ => false

/-- Modelled from the spec: scs `RenewToken` replaces the session token
with a fresh one (the scs implementation is an external dependency);
renewal is modelled as a deterministic step to a token distinct from
the old one, keeping the stored data. -/
def renewToken (s : Session) : Session :=
  { s with token := s.token + 1 }

/-- `putFlashMessage` from cmd/web/helpers.go: append the message to
the session's `messages` queue, creating the queue when the key is
absent (or holds a value that is not a `[]FlashMessage`). -/
def putFlashMessage (level : FlashLevel) (message : String) (s : Session) : Session :=
  let newMessage : FlashMessage := ⟨level, message⟩
  match sessGet s "messages" with
  | some (.vMsgs messages) => sessPut s "messages" (.vMsgs (messages ++ [newMessage]))
  | _ => sessPut s "messages" (.vMsgs [newMessage])

/-- The flash queue currently stored in a session (empty when the
`messages` key is absent or holds a value of another type). -/
def messagesOf (s : Session) : List FlashMessage :=
  match sessGet s "messages" with
  | some (.vMsgs ms) => ms
  | _ => []

end GoWebStart

namespace GoWebStart

/-! ### Validator (internal/validator) -/

/-- `Validator` from internal/validator: a map from field key to the
first error message recorded for that key. The Go `map[string]string`
is modelled as an association list with at most one binding per key
(`addError` never inserts a duplicate key). -/
structure Validator where
  errors : List (String × String)
deriving DecidableEq

/-- Message recorded for a key, if any. -/
def errLookup (v : Validator) (k : String) : Option String :=
  (v.errors.find? (fun p => p.1 == k)).map (fun p => p.2)

/-- `Validator.AddError`: record a message for a key unless one already
exists for that key (the nil-map initialization is implicit in the
empty list). -/
def Validator.addError (v : Validator) (key message : String) : Validator :=
  if (v.errors.find? (fun p => p.1 == key)).isSome then v
  else ⟨v.errors ++ [(key, message)]⟩

/-- `Validator.Check(key, ok, message)`: record an error when the check
failed. -/
def Validator.check (v : Validator) (key : String) (ok : Bool) (message : String) : Validator :=
  if ok then v else v.addError key message

/-- `Validator.HasErrors`. -/
def Validator.hasErrors (v : Validator) : Bool :=
  !v.errors.isEmpty

/-- `Validator.Valid`. -/
def Validator.valid (v : Validator) : Bool :=
  !v.hasErrors

/-! ### Validation checks (internal/validator) -/

/-- The white-space class of Go's `unicode.IsSpace`, used by
`strings.TrimSpace`. -/
def goIsSpace (c : Char) : Bool :=
  c == ' ' || c == '\t' || c == '\n' || c == (Char.ofNat 11) || c == (Char.ofNat 12) ||
  c == '\r' || c == (Char.ofNat 0x85) || c == (Char.ofNat 0xA0) ||
  c == (Char.ofNat 0x1680) ||
  (decide (0x2000 ≤ c.toNat) && decide (c.toNat ≤ 0x200A)) ||
  c == (Char.ofNat 0x2028) || c == (Char.ofNat 0x2029) || c == (Char.ofNat 0x202F) ||
  c == (Char.ofNat 0x205F) || c == (Char.ofNat 0x3000)

/-- Go `strings.TrimSpace` on the character sequence of a string. -/
def goTrimSpace (s : String) : List Char :=
  ((s.data.dropWhile goIsSpace).reverse.dropWhile goIsSpace).reverse

/-- `validator.NotBlank`. -/
def notBlank (value : String) : Bool :=
  !(goTrimSpace value).isEmpty

/-- `validator.MaxRunes`: `utf8.RuneCountInString` is the number of
code points, i.e. the length of the character list. -/
def maxRunes (value : String) (n : Nat) : Bool :=
  value.data.length ≤ n

/-- ASCII letters and digits, the `[a-zA-Z0-9]` class. -/
def isAlnum (c : Char) : Bool :=
  c.isAlpha || c.isDigit

/-- The character class of the local part of `validator.RgxEmail`:
alphanumerics and ``.!#$%&'*+/=?^_`{|}~-`` (the apostrophe, backtick
and braces are written by code point). -/
def isLocalChar (c : Char) : Bool :=
  isAlnum c ||
  c == '.' || c == '!' || c == '#' || c == '$' || c == '%' || c == '&' ||
  c == (Char.ofNat 39) || c == '*' || c == '+' || c == '/' || c == '=' ||
  c == '?' || c == '^' || c == '_' || c == (Char.ofNat 96) ||
  c == (Char.ofNat 0x7B) || c == '|' || c == (Char.ofNat 0x7D) ||
  c == (Char.ofNat 126) || c == '-'

/-- One domain label of `validator.RgxEmail`:
`[a-zA-Z0-9](?:[a-zA-Z0-9-]{0,61}[a-zA-Z0-9])?` — a single
alphanumeric, or an alphanumeric followed by up to 61 alphanumeric-or-
hyphen characters and a final alphanumeric. -/
def validLabel (cs : List Char) : Bool :=
  match cs with
  | [] => false
  | c :: rest =>
    isAlnum c &&
    (rest.isEmpty ||
      (rest.length ≤ 62 &&
       rest.dropLast.all (fun d => isAlnum d || d == '-') &&
       (match rest.getLast? with
        | some d => isAlnum d
        | none => false)))

/-- Split a character list at every occurrence of a separator. -/
def splitOnChar (sep : Char) (cs : List Char) : List (List Char) :=
  match cs with
  | [] => [[]]
  | c :: rest =>
    let tail := splitOnChar sep rest
    if c == sep then
      [] :: tail
    else
      match tail with
      | [] => [[c]]
      | g :: gs => (c :: g) :: gs

/-- The anchored match of `validator.RgxEmail`: a non-empty local part
over `isLocalChar`, an `@`, then dot-separated valid labels. Neither
character class contains `@`, so a matching string has exactly one
`@`; splitting at the first `@` is the match. -/
def matchesEmailRegex (cs : List Char) : Bool :=
  match splitOnChar '@' cs with
  | localPart :: domainPart :: [] =>
    !localPart.isEmpty && localPart.all isLocalChar &&
    (splitOnChar '.' domainPart).all validLabel
  | _ => false

/-- UTF-8 encoding of one character (Go strings are UTF-8 byte
sequences; `len` on a Go string counts these bytes). -/
def utf8Bytes (c : Char) : List Nat :=
  let n := c.toNat
  if n < 0x80 then [n]
  else if n < 0x800 then [0xC0 + n / 0x40, 0x80 + n % 0x40]
  else if n < 0x10000 then
    [0xE0 + n / 0x1000, 0x80 + (n / 0x40) % 0x40, 0x80 + n % 0x40]
  else
    [0xF0 + n / 0x40000, 0x80 + (n / 0x1000) % 0x40, 0x80 + (n / 0x40) % 0x40, 0x80 + n % 0x40]

/-- The UTF-8 bytes of a string, as Go's `len` and indexing see it. -/
def goBytes (s : String) : List Nat :=
  (s.data.map utf8Bytes).flatten

/-- `validator.IsEmail`: reject strings longer than 254 bytes, then
match `RgxEmail`. -/
def isEmail (value : String) : Bool :=
  if (goBytes value).length > 254 then false
  else matchesEmailRegex value.data

end GoWebStart

namespace GoWebStart

/-! ### HTTP model: requests, response writers, handlers -/

/-- The request data the modelled code reads: method, URL path, the
raw request URI (`r.RequestURI`, path plus query), the parsed query
and form values, and the request-context flags set by
`authenticateMW` (`isAuthenticatedContextKey`, `isAnonyousContextKey`;
`none` models an absent context value). -/
structure Request where
  method : String
  urlPath : String
  requestURI : String
  query : List (String × String)
  form : List (String × String)
  ctxIsAuthenticated : Option Bool
  ctxIsAnonymous : Option Bool
deriving DecidableEq

/-- `r.URL.Query().Get(k)`: first value of the key, or `""`. -/
def queryGet (r : Request) (k : String) : String :=
  ((r.query.find? (fun p => p.1 == k)).map (fun p => p.2)).getD ""

/-- `r.FormValue(k)`: first value of the key in the parsed form data
(which Go merges with the URL query), or `""`. -/
def formValue (r : Request) (k : String) : String :=
  ((r.form.find? (fun p => p.1 == k)).map (fun p => p.2)).getD ""

/-- `isAuthenticated` from cmd/web/helpers.go: the request-context
value under `isAuthenticatedContextKey` when it is a boolean,
otherwise `false`. -/
def isAuthenticated (r : Request) : Bool :=
  match r.ctxIsAuthenticated with
  | some b => b
  | none => false

/-- The login form data rendered into the login template
(`loginForm` in the `login` handler). -/
structure LoginForm where
  email : String
  password : String
  v : Validator
deriving DecidableEq

/-- The template data map built by `newTemplateData` plus the `"Form"`
entry the login handler adds; the CSRF token and version string come
from external collaborators (nosurf, vcs) and are not modelled. -/
structure TemplateData where
  isAuthenticated : Bool
  messages : List FlashMessage
  urlPath : String
  form : Option LoginForm
deriving DecidableEq

/-- Response-writer state: accumulated headers, the status written by
`WriteHeader` (0 before any write), the plain-text body, and — for
template responses — the page name and data handed to `render.Page`
(the rendered HTML is a function of these). -/
structure W where
  headers : List (String × String)
  status : Nat
  body : String
  page : Option String
  pageData : Option TemplateData
deriving DecidableEq

/-- `Header().Set`: replace the first binding of the key, or append. -/
def headerSet (hs : List (String × String)) (k v : String) : List (String × String) :=
  if (hs.find? (fun p => p.1 == k)).isSome then
    hs.map (fun p => if p.1 == k then (k, v) else p)
  else
    hs ++ [(k, v)]

/-- `Header().Add`: append a binding. -/
def headerAdd (hs : List (String × String)) (k v : String) : List (String × String) :=
  hs ++ [(k, v)]

/-- First value of a header key, or `""` (`Header().Get`). -/
def headerGet (hs : List (String × String)) (k : String) : String :=
  ((hs.find? (fun p => p.1 == k)).map (fun p => p.2)).getD ""

/-- Outcome of running a handler: normal completion, or a panic
carrying the response-writer and session state at the point of the
panic. -/
inductive Outcome
  | ok (w : W) (s : Session)
  | panicked (msg : String) (w : W) (s : Session)
deriving DecidableEq

/-- A handler in the embedding: request, response-writer state and
session in; an outcome out. -/
def Handler : Type :=
  Request → W → Session → Outcome

/-- A middleware decorates a handler. -/
def Middleware : Type :=
  Handler → Handler

/-- The status of an outcome's response-writer state. -/
def outcomeStatus (o : Outcome) : Nat :=
  match o with
  | .ok w _ => w.status
  | .panicked _ w _ => w.status

/-- Whether the outcome is a normal completion. -/
def outcomeIsOk (o : Outcome) : Bool :=
  match o with
  | .ok _ _ => true
  | .panicked _ _ _ => false

/-- The flash messages handed to the rendered page, if the outcome
completed normally with a template render. -/
def outcomePageMessages (o : Outcome) : List FlashMessage :=
  match o with
  | .ok w _ =>
    match w.pageData with
    | some d => d.messages
    | none => []
  | .panicked _ _ _ => []

/-! ### Response helpers (cmd/web/helpers.go and net/http) -/

/-- Go `http.Error`: sets `Content-Type` and
`X-Content-Type-Options: nosniff`, writes the status, and prints the
message followed by a newline. -/
def httpError (w : W) (msg : String) (code : Nat) : W :=
  { w with
      headers :=
        headerSet (headerSet w.headers "Content-Type" "text/plain; charset=utf-8")
          "X-Content-Type-Options" "nosniff",
      status := code,
      body := msg ++ "\n" }

/-- Go `http.Redirect`: sets the `Location` header and writes the
status code. -/
def httpRedirect (w : W) (url : String) (code : Nat) : W :=
  { w with headers := headerSet w.headers "Location" url, status := code }

/-- `serverError` from cmd/web/helpers.go: a 500 via `http.Error`,
with the error text and a stack trace in the body when the
development-mode flag is set and a fixed generic message otherwise
(the `debug.Stack()` output is represented by a placeholder; the log
line it emits is outside this response model). -/
def serverError (w : W) (err : String) (showTrace : Bool) : W :=
  if showTrace then
    httpError w (err ++ "\n\n" ++ "<stack>") 500
  else
    httpError w "The server encountered a problem and could not process your request" 500

/-- `clientError` from cmd/web/helpers.go: `http.Error` with the
standard status text. -/
def clientError (w : W) (status : Nat) (statusText : String) : W :=
  httpError w statusText status

/-- `newTemplateData` from cmd/web/helpers.go: pop the `messages` key
from the session (the flash drain) and build the common template
data. -/
def newTemplateData (r : Request) (s : Session) : TemplateData × Session :=
  let popped := sessPop s "messages"
  let messages :=
    match popped.1 with
    | some (.vMsgs ms) => ms
    | _ => []
  (⟨isAuthenticated r, messages, r.urlPath, none⟩, popped.2)

/-- `render.Page`: record the page name, the data it was rendered
with, and the status written (template execution against the embedded
templates is modelled as succeeding; its failure path is not taken in
this model). -/
def renderPage (w : W) (status : Nat) (data : TemplateData) (pageName : String) : W :=
  { w with status := status, page := some pageName, pageData := some data }

end GoWebStart

namespace GoWebStart

/-! ### Middleware (cmd/web/middleware.go) -/

/-- `recoverPanicMW`: run the wrapped handler; when it panics, recover
and answer through `serverError` on the response-writer state as it
stood at the panic (its log line is outside this response model). -/
def recoverPanicMW (next : Handler) (showTrace : Bool) : Handler :=
  fun r w s =>
    match next r w s with
    | .ok w1 s1 => .ok w1 s1
    | .panicked msg w1 s1 => .ok (serverError w1 msg showTrace) s1

/-- The four `Header().Set` calls of `secureHeadersMW`, in source
order. -/
def setSecurityHeaders (w : W) : W :=
  { w with
      headers :=
        headerSet
          (headerSet
            (headerSet
              (headerSet w.headers "Referrer-Policy" "origin-when-cross-origin")
              "X-Content-Type-Options" "nosniff")
            "X-Frame-Options" "deny")
          "X-XSS-Protection" "0" }

/-- `secureHeadersMW`: set the four fixed security headers, then run
the wrapped handler. -/
def secureHeadersMW (next : Handler) : Handler :=
  fun r w s => next r (setSecurityHeaders w) s

/-- `logRequestMW`: emit one structured log line about the request and
forward; the log stream is outside the response model, so the
response behavior is exactly that of the wrapped handler. -/
def logRequestMW (next : Handler) : Handler :=
  fun r w s => next r w s

/-- `authenticateMW`: when the session's `authenticated` boolean is
set, re-run the request with the `isAuthenticatedContextKey` and
`isAnonyousContextKey` context values set to `true`; otherwise forward
unchanged. -/
def authenticateMW (next : Handler) : Handler :=
  fun r w s =>
    let authenticated := sessGetBool s "authenticated"
    if !authenticated then next r w s
    else next { r with ctxIsAuthenticated := some true, ctxIsAnonymous := some true } w s

/-- Modelled from the spec: the external scs `LoadAndSave` middleware
loads session state before the inner handler runs and persists the
mutated state afterwards; with the session threaded explicitly through
every handler, that behavior is forwarding to the inner handler. -/
def loadAndSaveMW : Middleware :=
  fun next => fun r w s => next r w s

/-- Uppercase hexadecimal digit. -/
def hexDigitChar (n : Nat) : Char :=
  if n < 10 then Char.ofNat (48 + n)
  else Char.ofNat (65 + (n - 10))

/-- Escape one byte as Go `url.QueryEscape` does: keep unreserved
bytes (ASCII letters, digits, `-`, `_`, `.`, `~`), turn a space into
`+`, and percent-encode the rest in uppercase hex. -/
def escapeQueryByte (b : Nat) : List Char :=
  if (65 ≤ b && b ≤ 90) || (97 ≤ b && b ≤ 122) || (48 ≤ b && b ≤ 57) ||
      b == 45 || b == 95 || b == 46 || b == 126 then
    [Char.ofNat b]
  else if b == 32 then
    ['+']
  else
    ['%', hexDigitChar (b / 16), hexDigitChar (b % 16)]

/-- Go `url.QueryEscape` over the string's UTF-8 bytes. -/
def queryEscape (s : String) : String :=
  String.mk ((goBytes s).map escapeQueryByte).flatten

/-- `requireLoginMW`: redirect unauthenticated requests (HTTP 303) to
the login page with the request URI as the `next` parameter, without
running the wrapped handler; otherwise add `Cache-Control: no-store`
and run it. -/
def requireLoginMW (next : Handler) : Handler :=
  fun r w s =>
    if !isAuthenticated r then
      .ok (httpRedirect w ("/login/?next=" ++ queryEscape r.requestURI) 303) s
    else
      next r { w with headers := headerAdd w.headers "Cache-Control" "no-store" } s

/-- The application-wide chain assembled by `newServer` in
cmd/web/main.go: routes first, then, applied in source order,
`recoverPanicMW`, `secureHeadersMW`, `authenticateMW`,
`sessionManager.LoadAndSave` (the external session middleware, taken
as a parameter) and `logRequestMW` — each application wrapping the
previous handler. -/
def newServer (sessionMW : Middleware) (mux : Handler) (showTrace : Bool) : Handler :=
  let handler := recoverPanicMW mux showTrace
  let handler := secureHeadersMW handler
  let handler := authenticateMW handler
  let handler := sessionMW handler
  logRequestMW handler

/-! ### The login handler (cmd/web/middleware.go) -/

/-- The five `form.Check` calls of the login handler, in source
order. -/
def loginValidate (email password : String) : Validator :=
  (((((Validator.mk []).check "Email" (notBlank email)
      "This field cannot be blank.").check "Email" (maxRunes email 50)
      "This field cannot be more than 100 characters.").check "Email" (isEmail email)
      "Email must be a valid email.").check "Password" (notBlank password)
      "This field cannot be blank.").check "Password" (maxRunes password 100)
      "This field cannot be more than 150 characters."

/-- The `login` handler. `compareHash` stands for
`argon2id.ComparePasswordAndHash` (an internal package outside the
provided sources, modelled from the spec as a hash-verification
oracle returning a match flag or an error). The identity comparison
models `subtle.ConstantTimeCompare == 1` as string equality, which is
its defining input/output behavior. -/
def login (authEmail passwordHash : String)
    (compareHash : String → String → Except String Bool)
    (showTrace : Bool) : Handler :=
  fun r w s =>
    let nextRaw := queryGet r "next"
    let nextURL := if nextRaw.length == 0 then "/" else nextRaw
    if r.method == "GET" then
      let td := newTemplateData r s
      let data := { td.1 with form := some ⟨"", "", ⟨[]⟩⟩ }
      .ok (renderPage w 200 data "login.tmpl") td.2
    else
      -- r.ParseForm() is modelled as succeeding (its failure path
      -- answers 400 and is driven by the raw body, not modelled here)
      let form : LoginForm :=
        ⟨formValue r "email", formValue r "password",
          loginValidate (formValue r "email") (formValue r "password")⟩
      if form.v.hasErrors then
        let s1 := putFlashMessage .error "please correct the form errors" s
        let td := newTemplateData r s1
        .ok (renderPage w 422 { td.1 with form := some form } "login.tmpl") td.2
      else
        if !(authEmail == form.email) then
          let s1 := putFlashMessage .error "Email or password is incorrect" s
          let td := newTemplateData r s1
          .ok (renderPage w 422 { td.1 with form := some form } "login.tmpl") td.2
        else
          match compareHash form.password passwordHash with
          | .error e => .ok (serverError w e showTrace) s
          | .ok false =>
            let s1 := putFlashMessage .error "Email or password is incorrect" s
            let td := newTemplateData r s1
            .ok (renderPage w 422 { td.1 with form := some form } "login.tmpl") td.2
          | .ok true =>
            let s1 := renewToken s
            let s2 := sessPut s1 "authenticated" (.vBool true)
            let s3 := putFlashMessage .success "You are in!" s2
            .ok (httpRedirect w nextURL 303) s3

/-- A POST of the login form with the given field values and `next`
query parameter (an empty `next` models an absent parameter). -/
def mkLoginPost (email password next : String) : Request :=
  ⟨"POST", "/login/", "/login/", [("next", next)],
    [("email", email), ("password", password)], none, none⟩

/-! ### Background task runner (cmd/web/main.go `backgroundTask`) -/

/-- How a background work function `fn func() error` behaves when
executed: return `nil`, return an error, or panic. -/
inductive TaskOutcome
  | ok
  | err (e : String)
  | panicked (p : String)
deriving DecidableEq

/-- One `logger.Error("task", "name", funcName, "error", err)` entry. -/
structure LogEntry where
  msg : String
  taskName : String
  errText : String
deriving DecidableEq

/-- A background work function together with its runtime function
name (`runtime.FuncForPC(...).Name()`). -/
structure TaskFn where
  name : String
  run : TaskOutcome
deriving DecidableEq

/-- The outstanding-task counter and the error-log stream shared by
the runner. -/
structure BgState where
  counter : Int
  logs : List LogEntry
deriving DecidableEq

/-- `wg.Add(1)` — the only effect of `backgroundTask` at scheduling
time; the call returns to the caller right after this. -/
def bgSchedule (st : BgState) : BgState :=
  { st with counter := st.counter + 1 }

/-- Executing `err := fn()` inside the goroutine: the pending panic
(if the function panicked) and the log entries the non-deferred body
emits (`logger.Error` when `err != nil`). -/
def execFn (fn : TaskFn) : Option String × List LogEntry :=
  match fn.run with
  | .panicked p => (some p, [])
  | .err e => (none, [⟨"task", fn.name, e⟩])
  | .ok => (none, [])

/-- The deferred `recover()` block: a pending panic is swallowed and
logged; with no pending panic it logs nothing. -/
def deferRecover (fn : TaskFn) (pending : Option String) : Option String × List LogEntry :=
  match pending with
  | some p => (none, [⟨"task", fn.name, p⟩])
  | none => (none, [])

/-- The goroutine body of `backgroundTask`: run `fn`, then the
deferred blocks in last-in-first-out order — first the recover block,
then `wg.Done()`. Returns the counter after `Done`, the emitted log
entries, and any panic still escaping the goroutine. -/
def goroutineBody (fn : TaskFn) (counter : Int) : Int × List LogEntry × Option String :=
  let ex := execFn fn
  let rec2 := deferRecover fn ex.1
  (counter - 1, ex.2 ++ rec2.2, rec2.1)

/-- The full lifecycle of one `backgroundTask` call: schedule
(increment the counter, return to the caller), then the goroutine
runs to completion. Yields the final shared state and any panic that
escaped the goroutine. -/
def backgroundTask (st : BgState) (fn : TaskFn) : BgState × Option String :=
  let scheduled := bgSchedule st
  let body := goroutineBody fn scheduled.counter
  (⟨body.1, st.logs ++ body.2.1⟩, body.2.2)

end GoWebStart

namespace GoWebStart

/-! ### Derived notions and concrete fixtures used by the theorems -/

/-- Iterated `putFlashMessage` over a list of messages. -/
def putMany (s : Session) (ms : List FlashMessage) : Session :=
  ms.foldl (fun acc m => putFlashMessage m.level m.message acc) s

/-- Run a list of checks `(key, ok, message)` through
`Validator.Check`, in order. -/
def runChecks (v : Validator) (cs : List (String × Bool × String)) : Validator :=
  cs.foldl (fun acc c => acc.check c.1 c.2.1 c.2.2) v

/-- The message of the first failing check for a key in a list of
checks. -/
def firstFailMsg (cs : List (String × Bool × String)) (k : String) : Option String :=
  (cs.find? (fun c => c.1 == k && !c.2.1)).map (fun c => c.2.2)

/-- The four fixed security headers of `secureHeadersMW` with their
values. -/
def securityHeaderVals : List (String × String) :=
  [("Referrer-Policy", "origin-when-cross-origin"),
   ("X-Content-Type-Options", "nosniff"),
   ("X-Frame-Options", "deny"),
   ("X-XSS-Protection", "0")]

/-- A response-writer state carries all four security headers at their
fixed values. -/
def secureOkB (w : W) : Bool :=
  securityHeaderVals.all (fun kv => headerGet w.headers kv.1 == kv.2)

/-- The security headers hold on the response-writer state of an
outcome (for a panic, at the point of the panic). -/
def outcomeSecure (o : Outcome) : Bool :=
  match o with
  | .ok w _ => secureOkB w
  | .panicked _ w _ => secureOkB w

/-- A handler that never disturbs the four security-header values once
they are set — true of every route handler in this repository, which
only set `Content-Type`, `Cache-Control`, `WWW-Authenticate` and
`Location`, or re-set `X-Content-Type-Options` to the same `nosniff`
through `http.Error`. -/
def SecurePreserving (h : Handler) : Prop :=
  ∀ r w s, secureOkB w = true → outcomeSecure (h r w s) = true

/-- A handler that completes without writing anything. -/
def okHandler : Handler :=
  fun _ w s => .ok w s

/-- A handler that panics immediately, with the response-writer and
session state untouched. -/
def panickingHandler (p : String) : Handler :=
  fun _ w s => .panicked p w s

/-- A middleware stage that panics before calling the wrapped handler
(used to exhibit a panic raised inside an outer chain stage such as
Session Load/Save). -/
def panickingMW (p : String) : Middleware :=
  fun _ => panickingHandler p

/-- A plain GET request for the site root with no context flags. -/
def req0 : Request :=
  ⟨"GET", "/", "/", [], [], none, none⟩

/-- A GET of the login-protected logout page without the
authentication marker. -/
def reqLogout : Request :=
  ⟨"GET", "/logout/", "/logout/", [], [], none, none⟩

/-- The same request after `authenticateMW` has set the context
flags. -/
def reqAuth : Request :=
  ⟨"GET", "/logout/", "/logout/", [], [], some true, some true⟩

/-- A fresh response-writer state. -/
def w0 : W :=
  ⟨[], 0, "", none, none⟩

/-- An empty session. -/
def sess0 : Session :=
  ⟨0, []⟩

/-- A session that already holds one queued, not yet rendered flash
message. -/
def sessPending : Session :=
  ⟨5, [("messages", .vMsgs [⟨.info, "pending"⟩])]⟩

/-! ### Association-list lemmas shared by the header, session and
validator stores -/

theorem find?_cons_true {α : Type} (p : α → Bool) (a : α) (l : List α)
    (h : p a = true) : (a :: l).find? p = some a := by
  simp [List.find?, h]

theorem find?_cons_false {α : Type} (p : α → Bool) (a : α) (l : List α)
    (h : p a = false) : (a :: l).find? p = l.find? p := by
  simp [List.find?, h]

theorem filter_cons_true {α : Type} (p : α → Bool) (a : α) (l : List α)
    (h : p a = true) : (a :: l).filter p = a :: l.filter p := by
  simp [List.filter, h]

theorem filter_cons_false {α : Type} (p : α → Bool) (a : α) (l : List α)
    (h : p a = false) : (a :: l).filter p = l.filter p := by
  simp [List.filter, h]

theorem find?_map_subst {α : Type} (l : List (String × α)) (k : String) (v : α)
    (h : (l.find? (fun p => p.1 == k)).isSome) :
    (l.map (fun p => if p.1 == k then (k, v) else p)).find? (fun p => p.1 == k) = some (k, v) := by
  induction l with
  | nil => simp at h
  | cons p t ih =>
    by_cases hp : p.1 = k
    · have hfp : (if (p.1 == k) = true then (k, v) else p) = (k, v) := by
        rw [hp]
        simp
      rw [List.map_cons, hfp, find?_cons_true]
      simp
    · have hb : (p.1 == k) = false := beq_eq_false_iff_ne.mpr hp
      have hfp : (if (p.1 == k) = true then (k, v) else p) = p := by
        rw [hb]
        simp
      rw [find?_cons_false (fun q => q.1 == k) p t hb] at h
      rw [List.map_cons, hfp,
        find?_cons_false (fun q => q.1 == k) p
          (t.map fun q => if q.1 == k then (k, v) else q) hb]
      exact ih h

theorem find?_map_subst_other {α : Type} (l : List (String × α)) (k : String) (v : α)
    (k' : String) (hk : k' ≠ k) :
    (l.map (fun p => if p.1 == k then (k, v) else p)).find? (fun p => p.1 == k')
      = l.find? (fun p => p.1 == k') := by
  have hkk : (k == k') = false := beq_eq_false_iff_ne.mpr (Ne.symm hk)
  induction l with
  | nil => simp
  | cons p t ih =>
    by_cases hp : p.1 = k
    · have hb2 : (p.1 == k') = false := by
        rw [hp]
        exact hkk
      have hfp : (if (p.1 == k) = true then (k, v) else p) = (k, v) := by
        rw [hp]
        simp
      rw [List.map_cons, hfp,
        find?_cons_false (fun q => q.1 == k') (k, v)
          (t.map fun q => if q.1 == k then (k, v) else q) hkk,
        find?_cons_false (fun q => q.1 == k') p t hb2]
      exact ih
    · have hb : (p.1 == k) = false := beq_eq_false_iff_ne.mpr hp
      have hfp : (if (p.1 == k) = true then (k, v) else p) = p := by
        rw [hb]
        simp
      by_cases hq : p.1 = k'
      · have hb3 : (p.1 == k') = true := by
          rw [hq]
          simp
        rw [List.map_cons, hfp,
          find?_cons_true (fun q => q.1 == k') p
            (t.map fun q => if q.1 == k then (k, v) else q) hb3,
          find?_cons_true (fun q => q.1 == k') p t hb3]
      · have hb3 : (p.1 == k') = false := beq_eq_false_iff_ne.mpr hq
        rw [List.map_cons, hfp,
          find?_cons_false (fun q => q.1 == k') p
            (t.map fun q => if q.1 == k then (k, v) else q) hb3,
          find?_cons_false (fun q => q.1 == k') p t hb3]
        exact ih

theorem find?_append_assoc {α : Type} (l : List (String × α)) (k : String) (v : α)
    (k' : String) :
    ((l ++ [(k, v)]).find? (fun p => p.1 == k'))
      = ((l.find? (fun p => p.1 == k')).orElse
          (fun _ => if k = k' then some (k, v) else none)) := by
  induction l with
  | nil =>
    by_cases hq : k = k'
    · have hb : ((fun p : String × α => p.1 == k') (k, v)) = true := by
        simp [hq]
      rw [List.nil_append, find?_cons_true (fun p => p.1 == k') (k, v) [] hb]
      simp [Option.orElse, hq]
    · have hb : ((fun p : String × α => p.1 == k') (k, v)) = false := by
        simp [hq]
      rw [List.nil_append, find?_cons_false (fun p => p.1 == k') (k, v) [] hb]
      simp [Option.orElse, hq]
  | cons p t ih =>
    by_cases hq : p.1 = k'
    · have hb : (p.1 == k') = true := by simp [hq]
      rw [List.cons_append, find?_cons_true (fun p => p.1 == k') p (t ++ [(k, v)]) hb,
        find?_cons_true (fun p => p.1 == k') p t hb]
      simp [Option.orElse]
    · have hb : (p.1 == k') = false := beq_eq_false_iff_ne.mpr hq
      rw [List.cons_append, find?_cons_false (fun p => p.1 == k') p (t ++ [(k, v)]) hb,
        find?_cons_false (fun p => p.1 == k') p t hb]
      exact ih

theorem find?_filter_ne {α : Type} (l : List (String × α)) (k : String) :
    (l.filter (fun p => p.1 != k)).find? (fun p => p.1 == k) = none := by
  rw [List.find?_eq_none]
  intro a ha
  have := (List.mem_filter.mp ha).2
  simpa using this

/-! ### Header lemmas -/

theorem headerGet_headerSet_self (hs : List (String × String)) (k v : String) :
    headerGet (headerSet hs k v) k = v := by
  unfold headerGet headerSet
  by_cases h : (hs.find? (fun p => p.1 == k)).isSome
  · rw [if_pos h, find?_map_subst hs k v h]
    rfl
  · have hn : hs.find? (fun p => p.1 == k) = none :=
      Option.not_isSome_iff_eq_none.mp h
    rw [if_neg h, find?_append_assoc hs k v k, hn]
    simp [Option.orElse]

theorem headerGet_headerSet_other (hs : List (String × String)) (k v k' : String)
    (hk : k' ≠ k) :
    headerGet (headerSet hs k v) k' = headerGet hs k' := by
  have hkk : k ≠ k' := Ne.symm hk
  unfold headerGet headerSet
  by_cases h : (hs.find? (fun p => p.1 == k)).isSome
  · rw [if_pos h, find?_map_subst_other hs k v k' hk]
  · rw [if_neg h, find?_append_assoc hs k v k']
    rcases hf : hs.find? (fun p => p.1 == k') with _ | p
    · rw [hf]
      simp [Option.orElse, hkk]
    · rw [hf]
      simp [Option.orElse]

/-! ### Session-store lemmas -/

theorem sessGet_sessPut_self (s : Session) (k : String) (v : SessVal) :
    sessGet (sessPut s k v) k = some v := by
  unfold sessGet sessPut
  by_cases h : (s.data.find? (fun p => p.1 == k)).isSome
  · simp only [if_pos h]
    rw [find?_map_subst s.data k v h]
    rfl
  · have hn : s.data.find? (fun p => p.1 == k) = none :=
      Option.not_isSome_iff_eq_none.mp h
    simp only [if_neg h]
    rw [find?_append_assoc s.data k v k, hn]
    simp [Option.orElse]

theorem sessGet_sessPut_other (s : Session) (k : String) (v : SessVal) (k' : String)
    (hk : k' ≠ k) :
    sessGet (sessPut s k v) k' = sessGet s k' := by
  have hkk : k ≠ k' := Ne.symm hk
  unfold sessGet sessPut
  by_cases h : (s.data.find? (fun p => p.1 == k)).isSome
  · simp only [if_pos h]
    rw [find?_map_subst_other s.data k v k' hk]
  · simp only [if_neg h]
    rw [find?_append_assoc s.data k v k']
    rcases hf : s.data.find? (fun p => p.1 == k') with _ | p
    · rw [hf]
      simp [Option.orElse, hkk]
    · rw [hf]
      simp [Option.orElse]

theorem sessPut_token (s : Session) (k : String) (v : SessVal) :
    (sessPut s k v).token = s.token := by
  unfold sessPut
  by_cases h : (s.data.find? (fun p => p.1 == k)).isSome <;> simp [h]

theorem messagesOf_putFlashMessage (l : FlashLevel) (m : String) (s : Session) :
    messagesOf (putFlashMessage l m s) = messagesOf s ++ [⟨l, m⟩] := by
  unfold messagesOf putFlashMessage
  rcases hg : sessGet s "messages" with _ | v
  · simp [sessGet_sessPut_self]
  · rcases v with b | ms <;> simp [sessGet_sessPut_self]

theorem putFlashMessage_token (l : FlashLevel) (m : String) (s : Session) :
    (putFlashMessage l m s).token = s.token := by
  unfold putFlashMessage
  rcases hg : sessGet s "messages" with _ | v
  · simp [sessPut_token]
  · rcases v with b | ms <;> simp [sessPut_token]

theorem sessGet_putFlashMessage_other (l : FlashLevel) (m : String) (s : Session)
    (k : String) (hk : k ≠ "messages") :
    sessGet (putFlashMessage l m s) k = sessGet s k := by
  unfold putFlashMessage
  rcases hg : sessGet s "messages" with _ | v
  · simp [sessGet_sessPut_other _ _ _ _ hk]
  · rcases v with b | ms <;> simp [sessGet_sessPut_other _ _ _ _ hk]

theorem sessGet_drain_other (s : Session) (k : String) (hk : k ≠ "messages") :
    sessGet (sessPop s "messages").2 k = sessGet s k := by
  unfold sessPop sessGet
  simp only
  induction s.data with
  | nil => simp
  | cons p t ih =>
    by_cases hp : p.1 = "messages"
    · have h1 : (p.1 != "messages") = false := by simp [hp]
      have h2 : (p.1 == k) = false := by
        rw [hp]
        exact beq_eq_false_iff_ne.mpr (Ne.symm hk)
      rw [filter_cons_false (fun q => q.1 != "messages") p t h1,
        find?_cons_false (fun q => q.1 == k) p t h2]
      exact ih
    · have h1 : (p.1 != "messages") = true := by simp [hp]
      rw [filter_cons_true (fun q => q.1 != "messages") p t h1]
      by_cases hq : p.1 = k
      · have hb : (p.1 == k) = true := by simp [hq]
        rw [find?_cons_true (fun q => q.1 == k) p (t.filter fun q => q.1 != "messages") hb,
          find?_cons_true (fun q => q.1 == k) p t hb]
      · have hb : (p.1 == k) = false := beq_eq_false_iff_ne.mpr hq
        rw [find?_cons_false (fun q => q.1 == k) p (t.filter fun q => q.1 != "messages") hb,
          find?_cons_false (fun q => q.1 == k) p t hb]
        exact ih

theorem messagesOf_drain (s : Session) :
    messagesOf (sessPop s "messages").2 = [] := by
  unfold messagesOf sessPop sessGet
  simp only
  rw [find?_filter_ne s.data "messages"]
  rfl

theorem newTemplateData_messages (r : Request) (s : Session) :
    (newTemplateData r s).1.messages = messagesOf s := by
  unfold newTemplateData messagesOf sessPop
  rcases hg : sessGet s "messages" with _ | v
  · simp
  · rcases v with b | ms <;> simp

theorem newTemplateData_session (r : Request) (s : Session) :
    (newTemplateData r s).2 = (sessPop s "messages").2 := by
  unfold newTemplateData
  simp

end GoWebStart

namespace GoWebStart

/-! ### Security-header lemmas -/

theorem secureOkB_eq (w : W) : secureOkB w = true ↔
    headerGet w.headers "Referrer-Policy" = "origin-when-cross-origin" ∧
    headerGet w.headers "X-Content-Type-Options" = "nosniff" ∧
    headerGet w.headers "X-Frame-Options" = "deny" ∧
    headerGet w.headers "X-XSS-Protection" = "0" := by
  simp [secureOkB, securityHeaderVals]

theorem secureOkB_setSecurityHeaders (w : W) :
    secureOkB (setSecurityHeaders w) = true := by
  rw [secureOkB_eq]
  unfold setSecurityHeaders
  simp only
  refine ⟨?_, ?_, ?_, ?_⟩
  · rw [headerGet_headerSet_other _ _ _ _ (by decide),
      headerGet_headerSet_other _ _ _ _ (by decide),
      headerGet_headerSet_other _ _ _ _ (by decide),
      headerGet_headerSet_self]
  · rw [headerGet_headerSet_other _ _ _ _ (by decide),
      headerGet_headerSet_other _ _ _ _ (by decide),
      headerGet_headerSet_self]
  · rw [headerGet_headerSet_other _ _ _ _ (by decide),
      headerGet_headerSet_self]
  · rw [headerGet_headerSet_self]

theorem secureOkB_httpError (w : W) (msg : String) (code : Nat)
    (h : secureOkB w = true) : secureOkB (httpError w msg code) = true := by
  rw [secureOkB_eq] at h ⊢
  unfold httpError
  simp only
  refine ⟨?_, ?_, ?_, ?_⟩
  · rw [headerGet_headerSet_other _ _ _ _ (by decide),
      headerGet_headerSet_other _ _ _ _ (by decide)]
    exact h.1
  · rw [headerGet_headerSet_self]
  · rw [headerGet_headerSet_other _ _ _ _ (by decide),
      headerGet_headerSet_other _ _ _ _ (by decide)]
    exact h.2.2.1
  · rw [headerGet_headerSet_other _ _ _ _ (by decide),
      headerGet_headerSet_other _ _ _ _ (by decide)]
    exact h.2.2.2

theorem secureOkB_serverError (w : W) (err : String) (showTrace : Bool)
    (h : secureOkB w = true) : secureOkB (serverError w err showTrace) = true := by
  unfold serverError
  cases showTrace
  · simp only [Bool.false_eq_true, if_false]
    exact secureOkB_httpError w _ 500 h
  · simp only [if_true]
    exact secureOkB_httpError w _ 500 h

end GoWebStart

namespace GoWebStart

/-- Claim C1 (counterexample): contrary to the claim that Panic
Recovery is outermost in the assembled chain, a panic raised inside
the session middleware stage propagates out of the whole chain
uncaught — `newServer` applies `recoverPanicMW` first, so Session
Load/Save, Authentication Flagging and Request Logging all run
outside the recovery boundary. At this concrete input the chain's
outcome is the escaping panic, not a well-formed 500 response. -/
theorem chain_panic_recovery_cex :
    newServer (panickingMW "session middleware panic") okHandler false req0 w0 sess0
      = .panicked "session middleware panic" w0 sess0 ∧
    outcomeIsOk
      (newServer (panickingMW "session middleware panic") okHandler false req0 w0 sess0)
      = false := by
  exact ⟨rfl, rfl⟩

/-- Claim C1 (amended): in the assembled chain, Panic Recovery sits
directly around the router with Security Headers immediately outside
it. A panic raised by the routed handler is caught and converted into
an HTTP 500 response that carries the four security headers; but a
panic raised in an outer stage — Session Load/Save, Authentication
Flagging or Request Logging — is outside the Panic Recovery boundary
and escapes the chain uncaught. -/
theorem chain_panic_recovery_amended :
    (∀ (p : String) (r : Request) (w : W) (s : Session),
      newServer loadAndSaveMW (panickingHandler p) false r w s
        = .ok (serverError (setSecurityHeaders w) p false) s ∧
      outcomeStatus (newServer loadAndSaveMW (panickingHandler p) false r w s) = 500 ∧
      outcomeSecure (newServer loadAndSaveMW (panickingHandler p) false r w s) = true) ∧
    (∀ (p : String) (mux : Handler) (r : Request) (w : W) (s : Session),
      newServer (panickingMW p) mux false r w s = .panicked p w s) := by
  constructor
  · intro p r w s
    have heq : newServer loadAndSaveMW (panickingHandler p) false r w s
        = .ok (serverError (setSecurityHeaders w) p false) s := by
      unfold newServer loadAndSaveMW logRequestMW authenticateMW secureHeadersMW
        recoverPanicMW panickingHandler
      by_cases hb : sessGetBool s "authenticated" = true
      · simp [hb]
      · have hb2 : sessGetBool s "authenticated" = false := by
          cases hx : sessGetBool s "authenticated"
          · rfl
          · exact absurd hx hb
        simp [hb2]
    refine ⟨heq, ?_, ?_⟩
    · rw [heq]
      rfl
    · rw [heq]
      exact secureOkB_serverError _ _ _ (secureOkB_setSecurityHeaders w)
  · intro p mux r w s
    rfl

/-- Claim C2: for every request through the assembled chain — with
the faithful session middleware and any router whose handlers do not
disturb the four fixed security-header values — the chain completes
normally and the response carries
`X-Content-Type-Options: nosniff`, `X-Frame-Options: deny`,
`Referrer-Policy: origin-when-cross-origin` and `X-XSS-Protection: 0`;
moreover the Security Headers stage hands every downstream stage a
response-writer state that already carries them. -/
theorem secure_headers_on_every_response (mux : Handler) (showTrace : Bool)
    (r : Request) (w : W) (s : Session) (hpres : SecurePreserving mux) :
    outcomeIsOk (newServer loadAndSaveMW mux showTrace r w s) = true ∧
    outcomeSecure (newServer loadAndSaveMW mux showTrace r w s) = true ∧
    secureHeadersMW (recoverPanicMW mux showTrace) r w s
      = recoverPanicMW mux showTrace r (setSecurityHeaders w) s ∧
    secureOkB (setSecurityHeaders w) = true := by
  have hsec := secureOkB_setSecurityHeaders w
  have main : ∀ r1 : Request,
      outcomeIsOk (secureHeadersMW (recoverPanicMW mux showTrace) r1 w s) = true ∧
      outcomeSecure (secureHeadersMW (recoverPanicMW mux showTrace) r1 w s) = true := by
    intro r1
    have hp := hpres r1 (setSecurityHeaders w) s hsec
    unfold secureHeadersMW recoverPanicMW
    rcases hm : mux r1 (setSecurityHeaders w) s with ⟨w1, s1⟩ | ⟨m, w1, s1⟩ <;>
      rw [hm] at hp <;> simp only [hm]
    · exact ⟨rfl, hp⟩
    · exact ⟨rfl, secureOkB_serverError w1 m showTrace hp⟩
  have hchain : newServer loadAndSaveMW mux showTrace r w s
      = secureHeadersMW (recoverPanicMW mux showTrace)
          (if sessGetBool s "authenticated" = true
           then { r with ctxIsAuthenticated := some true, ctxIsAnonymous := some true }
           else r) w s := by
    unfold newServer loadAndSaveMW logRequestMW authenticateMW
    by_cases hb : sessGetBool s "authenticated" = true
    · simp [hb]
    · have hb2 : sessGetBool s "authenticated" = false := by
        cases hx : sessGetBool s "authenticated"
        · rfl
        · exact absurd hx hb
      simp [hb2]
  refine ⟨?_, ?_, rfl, hsec⟩
  · rw [hchain]
    exact (main _).1
  · rw [hchain]
    exact (main _).2

/-- Claim C2 (witness): the chain at a concrete request, with a
router that writes nothing, completes normally with all four security
headers in place. -/
theorem secure_headers_on_every_response_witness :
    outcomeIsOk (newServer loadAndSaveMW okHandler false req0 w0 sess0) = true ∧
    outcomeSecure (newServer loadAndSaveMW okHandler false req0 w0 sess0) = true ∧
    secureHeadersMW (recoverPanicMW okHandler false) req0 w0 sess0
      = recoverPanicMW okHandler false req0 (setSecurityHeaders w0) sess0 ∧
    secureOkB (setSecurityHeaders w0) = true :=
  secure_headers_on_every_response okHandler false req0 w0 sess0
    (fun _ _ _ h => h)

end GoWebStart

namespace GoWebStart

/-! ### Validator lemmas -/

theorem errLookup_addError (v : Validator) (k m k' : String) :
    errLookup (v.addError k m) k'
      = if k' = k then some ((errLookup v k).getD m) else errLookup v k' := by
  unfold Validator.addError errLookup
  by_cases h : (v.errors.find? (fun p => p.1 == k)).isSome
  · simp only [if_pos h]
    by_cases hk : k' = k
    · subst hk
      simp only [if_pos rfl]
      rcases hf : v.errors.find? (fun p => p.1 == k') with _ | p
      · rw [hf] at h
        simp at h
      · rw [hf]
        simp
    · simp only [if_neg hk]
  · have hn : v.errors.find? (fun p => p.1 == k) = none :=
      Option.not_isSome_iff_eq_none.mp h
    simp only [if_neg h]
    by_cases hk : k' = k
    · subst hk
      simp only [if_pos rfl]
      rw [find?_append_assoc v.errors k' m k', hn]
      simp [Option.orElse]
    · have hk2 : ¬(k = k') := fun hh => hk hh.symm
      simp only [if_neg hk]
      rw [find?_append_assoc v.errors k m k']
      rcases hf : v.errors.find? (fun p => p.1 == k') with _ | p
      · rw [hf]
        simp [Option.orElse, hk2]
      · rw [hf]
        simp [Option.orElse]

theorem addError_hasErrors (v : Validator) (k m : String) :
    (v.addError k m).hasErrors = true := by
  unfold Validator.addError Validator.hasErrors
  by_cases h : (v.errors.find? (fun p => p.1 == k)).isSome
  · simp only [if_pos h]
    rcases he : v.errors with _ | ⟨p, t⟩
    · rw [he] at h
      simp at h
    · simp
  · simp only [if_neg h]
    simp

theorem runChecks_errLookup (cs : List (String × Bool × String)) (v : Validator)
    (k : String) :
    errLookup (runChecks v cs) k
      = (errLookup v k).orElse (fun _ => firstFailMsg cs k) := by
  induction cs generalizing v with
  | nil =>
    have h1 : runChecks v ([] : List (String × Bool × String)) = v := rfl
    have h2 : firstFailMsg [] k = none := rfl
    rw [h1, h2]
    rcases hf : errLookup v k with _ | m <;> simp [Option.orElse]
  | cons c cs ih =>
    obtain ⟨ck, ok, msg⟩ := c
    have hstep : runChecks v ((ck, ok, msg) :: cs) = runChecks (v.check ck ok msg) cs := rfl
    rw [hstep, ih]
    cases ok
    · have hcheck : v.check ck false msg = v.addError ck msg := by
        unfold Validator.check
        simp
      have hfail : firstFailMsg ((ck, false, msg) :: cs) k
          = if ck = k then some msg else firstFailMsg cs k := by
        unfold firstFailMsg
        by_cases hck : ck = k
        · have hb : (((ck, false, msg) : String × Bool × String).1 == k
              && !((ck, false, msg) : String × Bool × String).2.1) = true := by
            simp [hck]
          rw [find?_cons_true (fun q => q.1 == k && !q.2.1) (ck, false, msg) cs hb]
          simp [hck]
        · have hb : (((ck, false, msg) : String × Bool × String).1 == k
              && !((ck, false, msg) : String × Bool × String).2.1) = false := by
            have hbq : (ck == k) = false := beq_eq_false_iff_ne.mpr hck
            simp [hbq]
          rw [find?_cons_false (fun q => q.1 == k && !q.2.1) (ck, false, msg) cs hb]
          simp [hck]
      rw [hcheck, hfail, errLookup_addError]
      by_cases hck : k = ck
      · subst hck
        simp only [if_pos rfl]
        rcases hv : errLookup v k with _ | m0 <;> simp [Option.orElse]
      · have hck2 : ¬(ck = k) := fun hh => hck hh.symm
        simp only [if_neg hck, if_neg hck2]
    · have hcheck : v.check ck true msg = v := by
        unfold Validator.check
        simp
      have hfail : firstFailMsg ((ck, true, msg) :: cs) k = firstFailMsg cs k := by
        unfold firstFailMsg
        have hb : (((ck, true, msg) : String × Bool × String).1 == k
            && !((ck, true, msg) : String × Bool × String).2.1) = false := by
          simp
        rw [find?_cons_false (fun q => q.1 == k && !q.2.1) (ck, true, msg) cs hb]
      rw [hcheck, hfail]

theorem runChecks_hasErrors (cs : List (String × Bool × String)) (v : Validator) :
    (runChecks v cs).hasErrors = (v.hasErrors || cs.any (fun c => !c.2.1)) := by
  induction cs generalizing v with
  | nil => simp [runChecks]
  | cons c cs ih =>
    obtain ⟨ck, ok, msg⟩ := c
    have hstep : runChecks v ((ck, ok, msg) :: cs) = runChecks (v.check ck ok msg) cs := rfl
    rw [hstep, ih]
    cases ok
    · have hcheck : v.check ck false msg = v.addError ck msg := by
        unfold Validator.check
        simp
      rw [hcheck, addError_hasErrors]
      simp
    · have hcheck : v.check ck true msg = v := by
        unfold Validator.check
        simp
      rw [hcheck]
      simp

/-- Claim C10: the first recorded error wins — `AddError` keeps an
existing message for a key; running any sequence of checks from a
fresh validator reports, for each key, exactly the message of the
earliest failing check on that key; and `Valid()` is `true` exactly
when every check in the sequence passed. -/
theorem validator_first_error_wins :
    (∀ (v : Validator) (k m : String),
      errLookup (Validator.addError v k m) k = some ((errLookup v k).getD m)) ∧
    (∀ (cs : List (String × Bool × String)) (k : String),
      errLookup (runChecks ⟨[]⟩ cs) k = firstFailMsg cs k) ∧
    (∀ cs : List (String × Bool × String),
      (runChecks ⟨[]⟩ cs).valid = cs.all (fun c => c.2.1)) := by
  refine ⟨?_, ?_, ?_⟩
  · intro v k m
    have h := errLookup_addError v k m k
    simpa using h
  · intro cs k
    rw [runChecks_errLookup]
    have h0 : errLookup ⟨[]⟩ k = none := rfl
    rw [h0]
    simp [Option.orElse]
  · intro cs
    unfold Validator.valid
    rw [runChecks_hasErrors]
    have h0 : (Validator.mk []).hasErrors = false := rfl
    rw [h0]
    simp [List.all_eq_not_any_not]

end GoWebStart

namespace GoWebStart

/-- Claim C5: for every work function — returning nil, returning an
error, or panicking — `backgroundTask` increments the shared counter
exactly once at scheduling time, the goroutine decrements it exactly
once when the work finishes, so the net effect of a completed task on
the counter is zero, and no fault inside the work escapes the
goroutine (it can therefore never reach the caller or terminate the
process). -/
theorem background_task_counter_balanced (st : BgState) (fn : TaskFn) :
    (bgSchedule st).counter = st.counter + 1 ∧
    (goroutineBody fn (bgSchedule st).counter).1 = st.counter ∧
    (backgroundTask st fn).1.counter = st.counter ∧
    (backgroundTask st fn).2 = none := by
  rcases fn with ⟨name, run⟩
  cases run <;>
    simp [bgSchedule, goroutineBody, backgroundTask, execFn, deferRecover]

/-- Claim C6: one `backgroundTask` execution emits exactly one error
log entry — tagged with the task function's name — when the work
returns a non-nil error or panics, and no log entry when the work
returns nil. -/
theorem background_task_logging :
    (∀ (st : BgState) (name : String),
      (backgroundTask st ⟨name, .ok⟩).1.logs = st.logs) ∧
    (∀ (st : BgState) (name e : String),
      (backgroundTask st ⟨name, .err e⟩).1.logs = st.logs ++ [⟨"task", name, e⟩]) ∧
    (∀ (st : BgState) (name p : String),
      (backgroundTask st ⟨name, .panicked p⟩).1.logs = st.logs ++ [⟨"task", name, p⟩]) := by
  refine ⟨?_, ?_, ?_⟩ <;> intros <;>
    simp [backgroundTask, goroutineBody, execFn, deferRecover, bgSchedule]

/-- Claim C8: the flash store is a put/drain queue with read-once
semantics — each put appends at the tail of the session's message
queue (creating it when absent), a drain through `newTemplateData`
returns the whole queue in insertion order while removing it from the
session, and a second drain returns nothing. -/
theorem flash_put_drain_round_trip (r : Request) (s : Session)
    (ms : List FlashMessage) (l : FlashLevel) (m : String) :
    messagesOf (putFlashMessage l m s) = messagesOf s ++ [⟨l, m⟩] ∧
    messagesOf (putMany s ms) = messagesOf s ++ ms ∧
    (newTemplateData r (putMany s ms)).1.messages = messagesOf s ++ ms ∧
    messagesOf (newTemplateData r (putMany s ms)).2 = [] ∧
    (newTemplateData r ((newTemplateData r (putMany s ms)).2)).1.messages = [] := by
  have hput := messagesOf_putFlashMessage l m s
  have hmany : ∀ (ms : List FlashMessage) (s : Session),
      messagesOf (putMany s ms) = messagesOf s ++ ms := by
    intro ms
    induction ms with
    | nil =>
      intro s
      simp [putMany]
    | cons x xs ih =>
      intro s
      have hstep : putMany s (x :: xs) = putMany (putFlashMessage x.level x.message s) xs := rfl
      rw [hstep, ih, messagesOf_putFlashMessage]
      simp
  refine ⟨hput, hmany ms s, ?_, ?_, ?_⟩
  · rw [newTemplateData_messages, hmany ms s]
  · rw [newTemplateData_session, messagesOf_drain]
  · rw [newTemplateData_messages, newTemplateData_session, messagesOf_drain]

/-- Claim C9: the login-required gate answers every request lacking
the authentication marker with an HTTP 303 redirect to the login page
carrying the original request URI as the `next` callback parameter —
without running the protected handler (the outcome is the same for
any wrapped handler) — and passes requests carrying the marker to the
handler with the response marked `Cache-Control: no-store`. -/
theorem require_login_gate (next next2 : Handler) (r : Request) (w : W) (s : Session) :
    (isAuthenticated r = false →
      requireLoginMW next r w s
        = .ok (httpRedirect w ("/login/?next=" ++ queryEscape r.requestURI) 303) s ∧
      requireLoginMW next r w s = requireLoginMW next2 r w s ∧
      outcomeStatus (requireLoginMW next r w s) = 303 ∧
      headerGet (httpRedirect w ("/login/?next=" ++ queryEscape r.requestURI) 303).headers
          "Location"
        = "/login/?next=" ++ queryEscape r.requestURI) ∧
    (isAuthenticated r = true →
      requireLoginMW next r w s
        = next r { w with headers := headerAdd w.headers "Cache-Control" "no-store" } s ∧
      ("Cache-Control", "no-store") ∈ headerAdd w.headers "Cache-Control" "no-store") := by
  constructor
  · intro h
    have he : requireLoginMW next r w s
        = .ok (httpRedirect w ("/login/?next=" ++ queryEscape r.requestURI) 303) s := by
      unfold requireLoginMW
      rw [h]
      simp
    have he2 : requireLoginMW next2 r w s
        = .ok (httpRedirect w ("/login/?next=" ++ queryEscape r.requestURI) 303) s := by
      unfold requireLoginMW
      rw [h]
      simp
    refine ⟨he, he.trans he2.symm, ?_, ?_⟩
    · rw [he]
      rfl
    · unfold httpRedirect
      simp only
      rw [headerGet_headerSet_self]
  · intro h
    constructor
    · unfold requireLoginMW
      rw [h]
      simp
    · unfold headerAdd
      simp

/-- Claim C9 (witness): concretely, an unauthenticated GET of the
protected logout page is redirected (303) to
`/login/?next=%2Flogout%2F` without the handler running, and the same
request carrying the authentication marker reaches the handler with
`Cache-Control: no-store` added. -/
theorem require_login_gate_witness :
    isAuthenticated reqLogout = false ∧
    requireLoginMW okHandler reqLogout w0 sess0
      = .ok (httpRedirect w0 ("/login/?next=" ++ queryEscape reqLogout.requestURI) 303) sess0 ∧
    queryEscape reqLogout.requestURI = "%2Flogout%2F" ∧
    isAuthenticated reqAuth = true ∧
    requireLoginMW okHandler reqAuth w0 sess0
      = okHandler reqAuth { w0 with headers := headerAdd w0.headers "Cache-Control" "no-store" } sess0 :=
  ⟨by decide,
   ((require_login_gate okHandler okHandler reqLogout w0 sess0).1 (by decide)).1,
   by decide,
   by decide,
   ((require_login_gate okHandler okHandler reqAuth w0 sess0).2 (by decide)).1⟩

end GoWebStart

namespace GoWebStart

/-! ### Login-handler evaluation lemmas -/

theorem newTemplateData_fst (r : Request) (s : Session) :
    (newTemplateData r s).1 = ⟨isAuthenticated r, messagesOf s, r.urlPath, none⟩ := by
  unfold newTemplateData messagesOf sessPop
  rcases hg : sessGet s "messages" with _ | v
  · simp [hg]
  · rcases v with b | ms <;> simp [hg]

theorem messagesOf_sessPut_other (s : Session) (k : String) (v : SessVal)
    (hk : k ≠ "messages") :
    messagesOf (sessPut s k v) = messagesOf s := by
  unfold messagesOf
  rw [sessGet_sessPut_other s k v "messages" (fun hh => hk hh.symm)]

theorem login_invalid_eval (authEmail passwordHash : String)
    (cmp : String → String → Except String Bool) (showTrace : Bool)
    (e p n : String) (w : W) (s : Session)
    (hv : (loginValidate e p).hasErrors = true) :
    login authEmail passwordHash cmp showTrace (mkLoginPost e p n) w s
      = .ok (renderPage w 422
          { (newTemplateData (mkLoginPost e p n)
              (putFlashMessage .error "please correct the form errors" s)).1
            with form := some ⟨e, p, loginValidate e p⟩ } "login.tmpl")
          (newTemplateData (mkLoginPost e p n)
            (putFlashMessage .error "please correct the form errors" s)).2 := by
  have h1 : formValue (mkLoginPost e p n) "email" = e := rfl
  have h2 : formValue (mkLoginPost e p n) "password" = p := rfl
  have h4 : ((mkLoginPost e p n).method == "GET") = false := rfl
  unfold login
  simp only [h1, h2, h4, hv, Bool.false_eq_true, if_false, if_true]

theorem login_wrong_email_eval (authEmail passwordHash : String)
    (cmp : String → String → Except String Bool) (showTrace : Bool)
    (e p n : String) (w : W) (s : Session)
    (hv : (loginValidate e p).hasErrors = false)
    (hne : (authEmail == e) = false) :
    login authEmail passwordHash cmp showTrace (mkLoginPost e p n) w s
      = .ok (renderPage w 422
          { (newTemplateData (mkLoginPost e p n)
              (putFlashMessage .error "Email or password is incorrect" s)).1
            with form := some ⟨e, p, loginValidate e p⟩ } "login.tmpl")
          (newTemplateData (mkLoginPost e p n)
            (putFlashMessage .error "Email or password is incorrect" s)).2 := by
  have h1 : formValue (mkLoginPost e p n) "email" = e := rfl
  have h2 : formValue (mkLoginPost e p n) "password" = p := rfl
  have h4 : ((mkLoginPost e p n).method == "GET") = false := rfl
  unfold login
  simp only [h1, h2, h4, hv, hne, Bool.false_eq_true, if_false, if_true,
    Bool.not_false, Bool.not_true, if_true]

theorem login_wrong_password_eval (authEmail passwordHash : String)
    (cmp : String → String → Except String Bool) (showTrace : Bool)
    (p n : String) (w : W) (s : Session)
    (hv : (loginValidate authEmail p).hasErrors = false)
    (hcmp : cmp p passwordHash = Except.ok false) :
    login authEmail passwordHash cmp showTrace (mkLoginPost authEmail p n) w s
      = .ok (renderPage w 422
          { (newTemplateData (mkLoginPost authEmail p n)
              (putFlashMessage .error "Email or password is incorrect" s)).1
            with form := some ⟨authEmail, p, loginValidate authEmail p⟩ } "login.tmpl")
          (newTemplateData (mkLoginPost authEmail p n)
            (putFlashMessage .error "Email or password is incorrect" s)).2 := by
  have h1 : formValue (mkLoginPost authEmail p n) "email" = authEmail := rfl
  have h2 : formValue (mkLoginPost authEmail p n) "password" = p := rfl
  have h4 : ((mkLoginPost authEmail p n).method == "GET") = false := rfl
  unfold login
  simp only [h1, h2, h4, hv, hcmp, beq_self_eq_true, Bool.false_eq_true, if_false,
    Bool.not_true, if_true]

theorem login_success_eval (authEmail passwordHash : String)
    (cmp : String → String → Except String Bool) (showTrace : Bool)
    (p n : String) (w : W) (s : Session)
    (hv : (loginValidate authEmail p).hasErrors = false)
    (hcmp : cmp p passwordHash = Except.ok true) :
    login authEmail passwordHash cmp showTrace (mkLoginPost authEmail p n) w s
      = .ok (httpRedirect w (if (queryGet (mkLoginPost authEmail p n) "next").length == 0
              then "/" else queryGet (mkLoginPost authEmail p n) "next") 303)
          (putFlashMessage .success "You are in!"
            (sessPut (renewToken s) "authenticated" (.vBool true))) := by
  have h1 : formValue (mkLoginPost authEmail p n) "email" = authEmail := rfl
  have h2 : formValue (mkLoginPost authEmail p n) "password" = p := rfl
  have h4 : ((mkLoginPost authEmail p n).method == "GET") = false := rfl
  unfold login
  simp only [h1, h2, h4, hv, hcmp, beq_self_eq_true, Bool.false_eq_true, if_false,
    Bool.not_true, if_true]

end GoWebStart

namespace GoWebStart

/-- Claim C3: for well-formed login submissions, an incorrect identity
and an incorrect password produce indistinguishable outcomes — both
render with HTTP 422, and the flash message shown on the rendered page
is in both cases exactly "Email or password is incorrect" appended to
whatever messages were already queued. -/
theorem login_failure_indistinguishable (authEmail passwordHash : String)
    (cmp : String → String → Except String Bool)
    (e1 p1 p2 n1 n2 : String) (w : W) (s : Session)
    (hv1 : (loginValidate e1 p1).hasErrors = false)
    (hne : e1 ≠ authEmail)
    (hv2 : (loginValidate authEmail p2).hasErrors = false)
    (hcmp : cmp p2 passwordHash = Except.ok false) :
    outcomeStatus (login authEmail passwordHash cmp false (mkLoginPost e1 p1 n1) w s)
      = 422 ∧
    outcomeStatus (login authEmail passwordHash cmp false (mkLoginPost authEmail p2 n2) w s)
      = 422 ∧
    outcomePageMessages (login authEmail passwordHash cmp false (mkLoginPost e1 p1 n1) w s)
      = messagesOf s ++ [⟨.error, "Email or password is incorrect"⟩] ∧
    outcomePageMessages
        (login authEmail passwordHash cmp false (mkLoginPost authEmail p2 n2) w s)
      = messagesOf s ++ [⟨.error, "Email or password is incorrect"⟩] ∧
    outcomePageMessages (login authEmail passwordHash cmp false (mkLoginPost e1 p1 n1) w s)
      = outcomePageMessages
          (login authEmail passwordHash cmp false (mkLoginPost authEmail p2 n2) w s) := by
  have hbe : (authEmail == e1) = false := beq_eq_false_iff_ne.mpr (Ne.symm hne)
  have he1 := login_wrong_email_eval authEmail passwordHash cmp false e1 p1 n1 w s hv1 hbe
  have he2 := login_wrong_password_eval authEmail passwordHash cmp false p2 n2 w s hv2 hcmp
  have hm1 : outcomePageMessages
      (login authEmail passwordHash cmp false (mkLoginPost e1 p1 n1) w s)
      = messagesOf s ++ [⟨.error, "Email or password is incorrect"⟩] := by
    rw [he1]
    unfold outcomePageMessages renderPage
    simp only
    rw [newTemplateData_fst]
    simp only
    rw [messagesOf_putFlashMessage]
  have hm2 : outcomePageMessages
      (login authEmail passwordHash cmp false (mkLoginPost authEmail p2 n2) w s)
      = messagesOf s ++ [⟨.error, "Email or password is incorrect"⟩] := by
    rw [he2]
    unfold outcomePageMessages renderPage
    simp only
    rw [newTemplateData_fst]
    simp only
    rw [messagesOf_putFlashMessage]
  refine ⟨?_, ?_, hm1, hm2, hm1.trans hm2.symm⟩
  · rw [he1]
    rfl
  · rw [he2]
    rfl

/-- Claim C3 (witness): a concrete wrong-identity attempt and a
concrete wrong-password attempt both yield 422 with the identical
generic flash text. -/
theorem login_failure_indistinguishable_witness :
    outcomeStatus (login "admin@example.com" "h" (fun _ _ => Except.ok false) false
        (mkLoginPost "user@example.com" "pw1" "") w0 sess0) = 422 ∧
    outcomeStatus (login "admin@example.com" "h" (fun _ _ => Except.ok false) false
        (mkLoginPost "admin@example.com" "pw2" "") w0 sess0) = 422 ∧
    outcomePageMessages (login "admin@example.com" "h" (fun _ _ => Except.ok false) false
        (mkLoginPost "user@example.com" "pw1" "") w0 sess0)
      = messagesOf sess0 ++ [⟨.error, "Email or password is incorrect"⟩] ∧
    outcomePageMessages (login "admin@example.com" "h" (fun _ _ => Except.ok false) false
        (mkLoginPost "admin@example.com" "pw2" "") w0 sess0)
      = messagesOf sess0 ++ [⟨.error, "Email or password is incorrect"⟩] ∧
    outcomePageMessages (login "admin@example.com" "h" (fun _ _ => Except.ok false) false
        (mkLoginPost "user@example.com" "pw1" "") w0 sess0)
      = outcomePageMessages (login "admin@example.com" "h" (fun _ _ => Except.ok false) false
          (mkLoginPost "admin@example.com" "pw2" "") w0 sess0) :=
  login_failure_indistinguishable "admin@example.com" "h" (fun _ _ => Except.ok false)
    "user@example.com" "pw1" "pw2" "" "" w0 sess0
    (by decide) (by decide) (by decide) rfl

/-- Claim C4 (counterexample): the claim says a login submission that
fails validation leaves all session state unchanged, but the handler
pushes a "please correct the form errors" flash and the render drains
the whole message queue. Starting from a session with one queued
message, a blank submission ends with a session whose message queue
binding is gone — different from the starting session. -/
theorem login_validation_failure_cex :
    login "admin@example.com" "hash" (fun _ _ => Except.ok false) false
        (mkLoginPost "" "" "") w0 sessPending
      = .ok (renderPage w0 422
          ⟨false, [⟨.info, "pending"⟩, ⟨.error, "please correct the form errors"⟩],
            "/login/", some ⟨"", "", loginValidate "" ""⟩⟩ "login.tmpl")
          ⟨5, []⟩ ∧
    (⟨5, []⟩ : Session) ≠ sessPending := by
  constructor
  · rfl
  · decide

/-- Claim C4 (amended): a login submission that fails validation
re-renders the form with HTTP 422 and the field-level error messages,
and leaves the `authenticated` key and the session token untouched;
but it does not leave all session state unchanged: it pushes a
"please correct the form errors" flash and the render drains the
session's message queue, which ends empty. -/
theorem login_validation_failure_amended (authEmail passwordHash : String)
    (cmp : String → String → Except String Bool) (showTrace : Bool)
    (e p n : String) (w : W) (s : Session)
    (hv : (loginValidate e p).hasErrors = true) :
    ∃ w1 s1,
      login authEmail passwordHash cmp showTrace (mkLoginPost e p n) w s = .ok w1 s1 ∧
      w1.status = 422 ∧
      w1.page = some "login.tmpl" ∧
      w1.pageData = some ⟨false,
        messagesOf s ++ [⟨.error, "please correct the form errors"⟩],
        "/login/", some ⟨e, p, loginValidate e p⟩⟩ ∧
      s1.token = s.token ∧
      sessGet s1 "authenticated" = sessGet s "authenticated" ∧
      messagesOf s1 = [] := by
  have he := login_invalid_eval authEmail passwordHash cmp showTrace e p n w s hv
  refine ⟨_, _, he, rfl, rfl, ?_, ?_, ?_, ?_⟩
  · unfold renderPage
    simp only
    rw [newTemplateData_fst]
    simp only
    rw [messagesOf_putFlashMessage]
    rfl
  · rw [newTemplateData_session]
    have h1 : ((sessPop (putFlashMessage .error "please correct the form errors" s)
        "messages").2).token
        = (putFlashMessage .error "please correct the form errors" s).token := rfl
    rw [h1, putFlashMessage_token]
  · rw [newTemplateData_session,
      sessGet_drain_other _ "authenticated" (by decide),
      sessGet_putFlashMessage_other _ _ _ "authenticated" (by decide)]
  · rw [newTemplateData_session, messagesOf_drain]

/-- Claim C4 (witness for the amended claim): the amended behavior at
a concrete blank submission over a session with one queued message. -/
theorem login_validation_failure_amended_witness :
    ∃ w1 s1,
      login "admin@example.com" "hash" (fun _ _ => Except.ok false) false
          (mkLoginPost "" "" "") w0 sessPending = .ok w1 s1 ∧
      w1.status = 422 ∧
      w1.page = some "login.tmpl" ∧
      w1.pageData = some ⟨false,
        messagesOf sessPending ++ [⟨.error, "please correct the form errors"⟩],
        "/login/", some ⟨"", "", loginValidate "" ""⟩⟩ ∧
      s1.token = sessPending.token ∧
      sessGet s1 "authenticated" = sessGet sessPending "authenticated" ∧
      messagesOf s1 = [] :=
  login_validation_failure_amended "admin@example.com" "hash"
    (fun _ _ => Except.ok false) false "" "" "" w0 sessPending (by decide)

/-- Claim C7: a well-formed login submission with the correct identity
and password renews the session token, sets `authenticated=true`,
pushes the success flash, and answers HTTP 303 with `Location` set to
the `next` query parameter when one was supplied and to the site root
otherwise. -/
theorem login_success_transition (authEmail passwordHash : String)
    (cmp : String → String → Except String Bool) (p n : String) (w : W) (s : Session)
    (hv : (loginValidate authEmail p).hasErrors = false)
    (hcmp : cmp p passwordHash = Except.ok true) :
    login authEmail passwordHash cmp false (mkLoginPost authEmail p n) w s
      = .ok (httpRedirect w (if n.length == 0 then "/" else n) 303)
          (putFlashMessage .success "You are in!"
            (sessPut (renewToken s) "authenticated" (.vBool true))) ∧
    outcomeStatus (login authEmail passwordHash cmp false (mkLoginPost authEmail p n) w s)
      = 303 ∧
    headerGet (httpRedirect w (if n.length == 0 then "/" else n) 303).headers "Location"
      = (if n.length == 0 then "/" else n) ∧
    (putFlashMessage .success "You are in!"
        (sessPut (renewToken s) "authenticated" (.vBool true))).token = s.token + 1 ∧
    sessGetBool (putFlashMessage .success "You are in!"
        (sessPut (renewToken s) "authenticated" (.vBool true))) "authenticated" = true ∧
    messagesOf (putFlashMessage .success "You are in!"
        (sessPut (renewToken s) "authenticated" (.vBool true)))
      = messagesOf s ++ [⟨.success, "You are in!"⟩] := by
  have hq : queryGet (mkLoginPost authEmail p n) "next" = n := rfl
  have he := login_success_eval authEmail passwordHash cmp false p n w s hv hcmp
  rw [hq] at he
  refine ⟨he, ?_, ?_, ?_, ?_, ?_⟩
  · rw [he]
    rfl
  · unfold httpRedirect
    simp only
    rw [headerGet_headerSet_self]
  · rw [putFlashMessage_token, sessPut_token]
    rfl
  · unfold sessGetBool
    rw [sessGet_putFlashMessage_other _ _ _ "authenticated" (by decide),
      sessGet_sessPut_self]
  · rw [messagesOf_putFlashMessage,
      messagesOf_sessPut_other _ _ _ (by decide)]
    have hrt : messagesOf (renewToken s) = messagesOf s := rfl
    rw [hrt]

/-- Claim C7 (witness): a concrete successful login with a supplied
`next` destination redirects there with 303, renews the token, sets
the authenticated flag, and queues the success flash. -/
theorem login_success_transition_witness :
    login "admin@example.com" "h" (fun _ _ => Except.ok true) false
        (mkLoginPost "admin@example.com" "secret" "/contact/") w0 sess0
      = .ok (httpRedirect w0 (if ("/contact/" : String).length == 0 then "/" else "/contact/") 303)
          (putFlashMessage .success "You are in!"
            (sessPut (renewToken sess0) "authenticated" (.vBool true))) ∧
    outcomeStatus (login "admin@example.com" "h" (fun _ _ => Except.ok true) false
        (mkLoginPost "admin@example.com" "secret" "/contact/") w0 sess0) = 303 ∧
    headerGet (httpRedirect w0
        (if ("/contact/" : String).length == 0 then "/" else "/contact/") 303).headers "Location"
      = (if ("/contact/" : String).length == 0 then "/" else "/contact/") ∧
    (putFlashMessage .success "You are in!"
        (sessPut (renewToken sess0) "authenticated" (.vBool true))).token = sess0.token + 1 ∧
    sessGetBool (putFlashMessage .success "You are in!"
        (sessPut (renewToken sess0) "authenticated" (.vBool true))) "authenticated" = true ∧
    messagesOf (putFlashMessage .success "You are in!"
        (sessPut (renewToken sess0) "authenticated" (.vBool true)))
      = messagesOf sess0 ++ [⟨.success, "You are in!"⟩] :=
  login_success_transition "admin@example.com" "h" (fun _ _ => Except.ok true)
    "secret" "/contact/" w0 sess0 (by decide) rfl

end GoWebStart
